import Mathlib

/-!
Shallow embedding of the invoice validation, fraud-scoring and approval
pipeline (Python backend `app/`), together with proofs about its behaviour.

Modelling conventions:
* Python floats are modelled as exact rationals (`ℚ`); all amounts in the
  program are ordinary decimal quantities, so no floating-point rounding is
  load-bearing for the properties below.
* Python `None`-able values are `Option _`; Python truthiness of a numeric
  field (`if x:`) is `x ≠ None ∧ x ≠ 0`, of a string field `x ≠ None ∧ x ≠ ""`.
  A Python `date` object is truthy whenever present, so date fields use
  `Option.isSome`.
* The SQL database handle is passed explicitly as lists of stored rows, and
  "now" (`datetime.utcnow()`) is an explicit integer day parameter.
* Python `round(x, 2)` (round half to even) is `pyRound2`.
* Diagnostic `details` dictionaries are not modelled: no control flow reads
  them back.  Interpolated numeric formatting inside message strings is
  abbreviated; the leading marker text of every message (`"DUPLICATE:"`,
  `"POTENTIAL DUPLICATE:"`, ...) is verbatim, since the score dispatch in
  `run_fraud_detection` branches on those markers by substring containment.
-/

namespace InvoiceAI

/-- Python truthiness of an optional numeric value (`if x:`). -/
def truthyQ : Option ℚ → Bool
  | none => false
  | some x => x != 0

/-- Python truthiness of an optional string value (`if s:`). -/
def truthyS : Option String → Bool
  | none => false
  | some s => s != ""

/-- Python `str.lower()` (ASCII inputs; done characterwise so that concrete
instances evaluate inside the kernel). -/
def pyLower (s : String) : String := String.mk (s.data.map Char.toLower)

def isSpaceChar (c : Char) : Bool := c == ' ' || c == '\t' || c == '\n' || c == '\r'

/-- Python `str.strip()`. -/
def pyStrip (s : String) : String :=
  String.mk (((s.data.dropWhile isSpaceChar).reverse.dropWhile isSpaceChar).reverse)

/-- Python `needle in haystack` on strings: substring containment. -/
def strContains (haystack needle : String) : Bool :=
  decide (needle.toList <:+: haystack.toList)

/-- Round half to even, as Python's `round` does on an exact value. -/
def roundHalfEven (x : ℚ) : ℤ :=
  let n : ℤ := Int.floor x
  let frac : ℚ := x - n
  if frac < 1/2 then n
  else if 1/2 < frac then n + 1
  else if n % 2 = 0 then n else n + 1

/-- Python `round(x, 2)`. -/
def pyRound2 (x : ℚ) : ℚ := (roundHalfEven (x * 100) : ℚ) / 100

/-! ## Data model (`app/extraction/entities.py`, plus the dynamically
attached `hs_code` / `tax_percentage` / `subtotal` attributes the parser
puts on line items and the validators read with `getattr(_, _, None)`). -/

structure LineItem where
  description : String
  quantity : ℚ := 1
  unit_price : ℚ := 0
  total : ℚ := 0
  hs_code : Option String := none
  tax_percentage : Option ℚ := none
  subtotal : Option ℚ := none
  deriving DecidableEq

structure InvoiceData where
  invoice_id : Option String := none
  invoice_date : Option String := none
  due_date : Option String := none
  customer_name : Option String := none
  total_amount : Option ℚ := none
  subtotal : Option ℚ := none
  tax_amount : Option ℚ := none
  tax_percentage : Option ℚ := none
  line_items : List LineItem := []
  deriving DecidableEq

/-! ## Approval workflow (`app/workflow/approval.py`) -/

/-- `APPROVAL_LEVELS[level]["threshold"]`. -/
def levelThreshold : ℕ → ℚ
  | 2 => 50000
  | 3 => 100000
  | _ => 0

/-- `APPROVERS[level]["name"]`; keys other than 1..3 raise `KeyError` in the
source and are unreachable from states the workflow creates. -/
def approverName : ℕ → String
  | 1 => "Manager"
  | 2 => "Finance Head"
  | 3 => "Compliance Officer"
  | _ => "KeyError"

/-- Persisted `models.InvoiceApproval` row (the fields the workflow logic
reads or writes). -/
structure InvoiceApproval where
  invoice_id : String
  status : String := "pending"
  level : ℕ := 1
  current_approver : String := "Manager"
  vendor_name : Option String := none
  country : Option String := none
  total_amount : Option ℚ := none
  fraud_score : Option ℚ := none
  approved_by : Option String := none
  rejection_reason : Option String := none
  comments : Option String := none
  deriving DecidableEq

/-- The amount block of the `required_level` computation in
`create_approval_request` (lines 60-64). -/
def requiredLevelAmount (total_amount : Option ℚ) : ℕ :=
  if truthyQ total_amount then
    if total_amount.getD 0 > levelThreshold 3 then 3
    else if total_amount.getD 0 > levelThreshold 2 then 2
    else 1
  else 1

/-- The `required_level` computation at the top of `create_approval_request`
(lines 57-70): level 1 by default, raised by amount thresholds, then
`max`-ed with the level forced by the fraud score. -/
def requiredLevelCalc (total_amount fraud_score : Option ℚ) : ℕ :=
  let rl : ℕ := requiredLevelAmount total_amount
  if truthyQ fraud_score ∧ fraud_score.getD 0 ≥ 70 then max rl 3
  else if truthyQ fraud_score ∧ fraud_score.getD 0 ≥ 40 then max rl 2
  else rl

/-- `create_approval_request`: computes `required_level` (which the source
then discards) and stores a new approval row that starts at level 1 with the
level-1 approver. -/
def create_approval_request (invoice_id : String) (vendor_name country : Option String)
    (total_amount fraud_score : Option ℚ) : InvoiceApproval :=
  -- `required_level` is computed in the source but not written to the record
  let _required_level := requiredLevelCalc total_amount fraud_score
  { invoice_id := invoice_id
    status := "pending"
    level := 1
    current_approver := approverName 1
    vendor_name := vendor_name
    country := country
    total_amount := total_amount
    fraud_score := fraud_score }

/-- The `needs_higher` computation in `approve_invoice` (lines 118-129). -/
def needsHigher (lvl : ℕ) (total_amount fraud_score : Option ℚ) : Bool :=
  let nh1 : Bool :=
    if truthyQ total_amount then
      if lvl < 3 ∧ total_amount.getD 0 > levelThreshold 3 then true
      else if lvl < 2 ∧ total_amount.getD 0 > levelThreshold 2 then true
      else false
    else false
  if truthyQ fraud_score then
    if lvl < 3 ∧ fraud_score.getD 0 ≥ 70 then true
    else if lvl < 2 ∧ fraud_score.getD 0 ≥ 40 then true
    else nh1
  else nh1

inductive ApproveResult where
  | error (msg : String)
  | escalated (a : InvoiceApproval)
  | approved (a : InvoiceApproval)
  deriving DecidableEq

/-- `approve_invoice` on a fetched approval row: guard on status, then
either escalate one level or finalize. -/
def approve_invoice (a : InvoiceApproval) (approver_name : String) : ApproveResult :=
  if a.status ≠ "pending" then
    .error ("Invoice already " ++ a.status)
  else if needsHigher a.level a.total_amount a.fraud_score then
    .escalated { a with
      level := a.level + 1
      current_approver := approverName (a.level + 1) }
  else
    .approved { a with
      status := "approved"
      approved_by := some approver_name }

inductive RejectResult where
  | error (msg : String)
  | success (a : InvoiceApproval)
  deriving DecidableEq

/-- `reject_invoice` on a fetched approval row: guard on status, then mark
rejected and record the reason (no check on the reason's content). -/
def reject_invoice (a : InvoiceApproval) (rejector_name reason : String) : RejectResult :=
  if a.status ≠ "pending" then
    .error ("Invoice already " ++ a.status)
  else
    .success { a with
      status := "rejected"
      approved_by := some rejector_name
      rejection_reason := some reason }

/-- One call of `approve_invoice`, viewed as a state update (error leaves the
row unchanged, as the source does not write in that branch). -/
def stepApproval (a : InvoiceApproval) : InvoiceApproval :=
  match approve_invoice a "approver" with
  | .error _ => a
  | .escalated a' => a'
  | .approved a' => a'

/-- `true` iff a `RejectResult` is the success outcome. -/
def RejectResult.ok : RejectResult → Bool
  | .success _ => true
  | .error _ => false

/-! Spec-side restatement of the initial-level rule, used to compare the
source computation with the specification's "maximum of the level implied by
amount and the level implied by fraud score" phrasing. -/

/-- The review level implied by the amount alone, per the spec's words. -/
def specAmountLevel : Option ℚ → ℕ
  | none => 1
  | some a => if 100000 < a then 3 else if 50000 < a then 2 else 1

/-- The review level forced by the fraud score alone, per the spec's words. -/
def specFraudLevel : Option ℚ → ℕ
  | none => 1
  | some f => if 70 ≤ f then 3 else if 40 ≤ f then 2 else 1

/-- The request has a required level of 3: amount above the level-3
threshold, or fraud score at least 70. -/
def requiresLevel3 (a : InvoiceApproval) : Prop :=
  (truthyQ a.total_amount = true ∧ 100000 < a.total_amount.getD 0) ∨
  (truthyQ a.fraud_score = true ∧ 70 ≤ a.fraud_score.getD 0)

end InvoiceAI

namespace InvoiceAI

lemma requiredLevelAmount_eq_spec (amt : Option ℚ) :
    requiredLevelAmount amt = specAmountLevel amt := by
  rcases amt with _ | a
  · simp [requiredLevelAmount, truthyQ, specAmountLevel]
  · by_cases ha : a = 0
    · subst ha
      norm_num [requiredLevelAmount, truthyQ, specAmountLevel, levelThreshold]
    · simp [requiredLevelAmount, truthyQ, specAmountLevel, levelThreshold, ha, gt_iff_lt]

lemma specAmountLevel_pos (amt : Option ℚ) : 1 ≤ specAmountLevel amt := by
  rcases amt with _ | a
  · simp [specAmountLevel]
  · simp only [specAmountLevel]
    split_ifs <;> omega

lemma requiredLevelCalc_eq_max (amt fs : Option ℚ) :
    requiredLevelCalc amt fs = max (specAmountLevel amt) (specFraudLevel fs) := by
  have hp : 1 ≤ specAmountLevel amt := specAmountLevel_pos amt
  simp only [requiredLevelCalc, requiredLevelAmount_eq_spec]
  rcases fs with _ | f
  · simp only [truthyQ, Bool.false_eq_true, false_and, if_false, specFraudLevel]
    omega
  · by_cases h70 : (70:ℚ) ≤ f
    · have hf0 : f ≠ 0 := by intro h; rw [h] at h70; norm_num at h70
      simp [truthyQ, specFraudLevel, h70, hf0, ge_iff_le]
    · by_cases h40 : (40:ℚ) ≤ f
      · have hf0 : f ≠ 0 := by intro h; rw [h] at h40; norm_num at h40
        simp [truthyQ, specFraudLevel, h70, h40, hf0, ge_iff_le]
      · simp [truthyQ, specFraudLevel, h70, h40, ge_iff_le]
        omega

/-! Behavioural lemmas for `needsHigher` / `stepApproval`. -/

lemma needsHigher_three (amt fs : Option ℚ) : needsHigher 3 amt fs = false := by
  simp [needsHigher]

lemma needsHigher_of_req3 (lvl : ℕ) (hl : lvl < 3) (amt fs : Option ℚ)
    (h : (truthyQ amt = true ∧ 100000 < amt.getD 0) ∨
         (truthyQ fs = true ∧ 70 ≤ fs.getD 0)) :
    needsHigher lvl amt fs = true := by
  rcases h with ⟨ht, ha⟩ | ⟨ht, hf⟩
  · simp [needsHigher, ht, hl, ha, levelThreshold]
  · simp [needsHigher, ht, hl, hf, ge_iff_le]

lemma stepApproval_escalates (a : InvoiceApproval) (hst : a.status = "pending")
    (hn : needsHigher a.level a.total_amount a.fraud_score = true) :
    stepApproval a =
      { a with level := a.level + 1, current_approver := approverName (a.level + 1) } := by
  simp [stepApproval, approve_invoice, hst, hn]

lemma stepApproval_finalizes (a : InvoiceApproval) (hst : a.status = "pending")
    (hn : needsHigher a.level a.total_amount a.fraud_score = false) :
    stepApproval a = { a with status := "approved", approved_by := some "approver" } := by
  simp [stepApproval, approve_invoice, hst, hn]

lemma stepApproval_level_le (b : InvoiceApproval) :
    (stepApproval b).level ≤ b.level + 1 := by
  simp only [stepApproval, approve_invoice]
  split_ifs <;> simp

lemma stepApproval_of_lt3 (a : InvoiceApproval) (hst : a.status = "pending")
    (hl : a.level < 3) (h3 : requiresLevel3 a) :
    stepApproval a =
      { a with level := a.level + 1, current_approver := approverName (a.level + 1) } :=
  stepApproval_escalates a hst (needsHigher_of_req3 a.level hl _ _ h3)

lemma stepApproval_of_level3 (a : InvoiceApproval) (hst : a.status = "pending")
    (hl : a.level = 3) :
    stepApproval a = { a with status := "approved", approved_by := some "approver" } := by
  refine stepApproval_finalizes a hst ?_
  rw [hl]
  exact needsHigher_three _ _

/-- The spec's Scenario D request: vendor "Acme", amount 120000, no fraud
score yet. -/
def scenarioD : InvoiceApproval :=
  create_approval_request "INV-D" (some "Acme") none (some 120000) none

/-- C1 (counterexample): for the invoice of Scenario D (amount 120000, above
the level-3 threshold) the approval request created by
`create_approval_request` has initial level 1 — not level 3 as the claim
states — and its initial approver is the level-1 role. -/
theorem scenarioD_initial_level_is_one_not_three :
    scenarioD.level = 1 ∧ scenarioD.level ≠ 3 ∧ scenarioD.current_approver = "Manager" := by
  refine ⟨rfl, by decide, rfl⟩

/-- C1 (amended): `create_approval_request` computes a required level equal
to the maximum of the level implied by the amount and the level implied by
the fraud score (≥70 forces 3, ≥40 forces 2, amount thresholds 100000/50000),
but the stored request always starts at level 1 with the level-1 approver
("Manager") and status "pending"; the computed required level is not written
to the record. -/
theorem create_request_starts_at_level_one (invoice_id : String)
    (vendor country : Option String) (amt fs : Option ℚ) :
    (create_approval_request invoice_id vendor country amt fs).level = 1 ∧
    (create_approval_request invoice_id vendor country amt fs).current_approver = "Manager" ∧
    (create_approval_request invoice_id vendor country amt fs).status = "pending" ∧
    requiredLevelCalc amt fs = max (specAmountLevel amt) (specFraudLevel fs) :=
  ⟨rfl, rfl, rfl, requiredLevelCalc_eq_max amt fs⟩

/-- C3: for every pending approval request whose amount or fraud score
implies required level 3, successive `approve_invoice` calls reach status
"approved" in at most 3 calls; each non-final call leaves the request
pending and raises the level by exactly 1, and no single call ever raises
the level by more than 1. -/
theorem approve_escalates_one_level_per_call_to_approved (a : InvoiceApproval)
    (hst : a.status = "pending") (h3 : requiresLevel3 a) :
    (∀ b : InvoiceApproval, (stepApproval b).level ≤ b.level + 1) ∧
    (a.level = 1 →
      (stepApproval a).status = "pending" ∧ (stepApproval a).level = 2 ∧
      (stepApproval (stepApproval a)).status = "pending" ∧
      (stepApproval (stepApproval a)).level = 3 ∧
      (stepApproval (stepApproval (stepApproval a))).status = "approved") ∧
    (a.level = 2 →
      (stepApproval a).status = "pending" ∧ (stepApproval a).level = 3 ∧
      (stepApproval (stepApproval a)).status = "approved") ∧
    (a.level = 3 → (stepApproval a).status = "approved") := by
  refine ⟨stepApproval_level_le, ?_, ?_, ?_⟩
  · intro hl1
    have e1 : stepApproval a =
        { a with level := a.level + 1, current_approver := approverName (a.level + 1) } :=
      stepApproval_of_lt3 a hst (by omega) h3
    have hs1 : (stepApproval a).status = "pending" := by rw [e1]; exact hst
    have hv1 : (stepApproval a).level = 2 := by rw [e1]; simp [hl1]
    have hr1 : requiresLevel3 (stepApproval a) := by rw [e1]; exact h3
    have e2 : stepApproval (stepApproval a) =
        { (stepApproval a) with level := (stepApproval a).level + 1, current_approver := approverName ((stepApproval a).level + 1) } :=
      stepApproval_of_lt3 _ hs1 (by omega) hr1
    have hs2 : (stepApproval (stepApproval a)).status = "pending" := by rw [e2]; exact hs1
    have hv2 : (stepApproval (stepApproval a)).level = 3 := by
      rw [e2]
      change (stepApproval a).level + 1 = 3
      omega
    have e3 : stepApproval (stepApproval (stepApproval a)) =
        { (stepApproval (stepApproval a)) with status := "approved", approved_by := some "approver" } :=
      stepApproval_of_level3 _ hs2 hv2
    exact ⟨hs1, hv1, hs2, hv2, by rw [e3]⟩
  · intro hl2
    have e1 : stepApproval a =
        { a with level := a.level + 1, current_approver := approverName (a.level + 1) } :=
      stepApproval_of_lt3 a hst (by omega) h3
    have hs1 : (stepApproval a).status = "pending" := by rw [e1]; exact hst
    have hv1 : (stepApproval a).level = 3 := by rw [e1]; simp [hl2]
    have e2 : stepApproval (stepApproval a) =
        { (stepApproval a) with status := "approved", approved_by := some "approver" } :=
      stepApproval_of_level3 _ hs1 hv1
    exact ⟨hs1, hv1, by rw [e2]⟩
  · intro hl3
    rw [stepApproval_of_level3 a hst hl3]

/-- Witness for C3: the Scenario-D style request (amount 120000 > 100000) at
level 1 is pending, requires level 3, and the three successive approval
calls behave as the theorem states. -/
theorem approve_escalates_one_level_per_call_to_approved_witness :
    scenarioD.status = "pending" ∧ requiresLevel3 scenarioD ∧
    ((∀ b : InvoiceApproval, (stepApproval b).level ≤ b.level + 1) ∧
     (scenarioD.level = 1 →
       (stepApproval scenarioD).status = "pending" ∧ (stepApproval scenarioD).level = 2 ∧
       (stepApproval (stepApproval scenarioD)).status = "pending" ∧
       (stepApproval (stepApproval scenarioD)).level = 3 ∧
       (stepApproval (stepApproval (stepApproval scenarioD))).status = "approved") ∧
     (scenarioD.level = 2 →
       (stepApproval scenarioD).status = "pending" ∧ (stepApproval scenarioD).level = 3 ∧
       (stepApproval (stepApproval scenarioD)).status = "approved") ∧
     (scenarioD.level = 3 → (stepApproval scenarioD).status = "approved")) :=
  ⟨rfl, Or.inl (by decide),
    approve_escalates_one_level_per_call_to_approved scenarioD rfl (Or.inl (by decide))⟩

/-- A minimal pending approval row, used as concrete input. -/
def samplePending : InvoiceApproval := { invoice_id := "INV-1" }

/-- C5 (counterexample): `reject_invoice` succeeds on a pending request even
when the reason is the empty string — the source performs no non-empty-reason
check — so the claim that it "succeeds only when given a non-empty reason" is
false. -/
theorem reject_accepts_empty_reason :
    (reject_invoice samplePending "Bob" "").ok = true ∧
    reject_invoice samplePending "Bob" "" =
      .success { samplePending with status := "rejected", approved_by := some "Bob", rejection_reason := some "" } := by
  exact ⟨rfl, rfl⟩

/-- C5 (amended): for every pending approval request and every reason string
(empty or not), `reject_invoice` succeeds, and the resulting request is
terminal ("rejected") regardless of its current level, with the reason
recorded and the level unchanged. -/
theorem reject_pending_always_terminal (a : InvoiceApproval) (rejector reason : String)
    (hst : a.status = "pending") :
    (reject_invoice a rejector reason).ok = true ∧
    ∀ a', reject_invoice a rejector reason = .success a' →
      a'.status = "rejected" ∧ a'.rejection_reason = some reason ∧ a'.level = a.level := by
  constructor
  · simp [reject_invoice, hst, RejectResult.ok]
  · intro a' h
    simp only [reject_invoice, hst, ne_eq, not_true_eq_false, if_false,
      RejectResult.success.injEq] at h
    rw [← h]
    exact ⟨rfl, rfl, rfl⟩

/-- Witness for C5: the sample pending request with reason "too costly". -/
theorem reject_pending_always_terminal_witness :
    samplePending.status = "pending" ∧
    ((reject_invoice samplePending "Bob" "too costly").ok = true ∧
     ∀ a', reject_invoice samplePending "Bob" "too costly" = .success a' →
       a'.status = "rejected" ∧ a'.rejection_reason = some "too costly" ∧
       a'.level = samplePending.level) :=
  ⟨rfl, reject_pending_always_terminal samplePending "Bob" "too costly" rfl⟩

end InvoiceAI

namespace InvoiceAI

/-! ## Country rules and product tax rates (`app/validation/country_rules.py`) -/

structure HsRateEntry where
  code : String
  rate : ℚ
  descr : String
  deriving DecidableEq

structure CategoryEntry where
  name : String
  rate : ℚ
  keywords : List String
  deriving DecidableEq

structure CountryTaxRates where
  default_tax_rate : ℚ
  hs_code_rates : List HsRateEntry
  category_rates : List CategoryEntry
  deriving DecidableEq

/-- `COUNTRY_TAX_RATES` (country_rules.py lines 33-107), in declaration
order (Python dicts iterate in insertion order). -/
def COUNTRY_TAX_RATES : List (String × CountryTaxRates) :=
  [ ("russia",
     { default_tax_rate := 20
       hs_code_rates :=
         [ ⟨"870321", 10, "Passenger Cars"⟩, ⟨"870322", 10, "Passenger Vehicles 1000-1500cc"⟩,
           ⟨"870323", 10, "Passenger Vehicles 1500-3000cc"⟩, ⟨"260111", 5, "Iron Ore Fines"⟩,
           ⟨"260112", 5, "Iron Ore Agglomerated"⟩, ⟨"720851", 8, "Steel Coils"⟩,
           ⟨"720852", 15, "Steel Hot-Rolled"⟩, ⟨"300490", 50, "Medicines/Pharmaceuticals"⟩,
           ⟨"300410", 50, "Antibiotics"⟩, ⟨"854231", 18, "Electronic Processors"⟩,
           ⟨"847130", 18, "Laptops/Computers"⟩ ]
       category_rates :=
         [ ⟨"automotive", 10, ["car", "vehicle", "automobile", "passenger"]⟩,
           ⟨"metals", 5, ["iron ore", "ore fines"]⟩,
           ⟨"steel", 15, ["steel", "coil", "hot-rolled"]⟩,
           ⟨"medicines", 50, ["medicine", "drug", "pharmaceutical", "antibiotic"]⟩,
           ⟨"electronics", 18, ["electronic", "computer", "laptop", "processor"]⟩,
           ⟨"food", 10, ["food", "grain", "meat", "vegetable"]⟩ ] }),
    ("china",
     { default_tax_rate := 13
       hs_code_rates :=
         [ ⟨"870321", 25, "Passenger Cars"⟩, ⟨"870322", 25, "Passenger Vehicles"⟩,
           ⟨"260111", 3, "Iron Ore Fines"⟩, ⟨"720851", 13, "Steel Coils"⟩,
           ⟨"854231", 13, "Electronic Processors"⟩, ⟨"520100", 16, "Cotton"⟩ ]
       category_rates :=
         [ ⟨"automotive", 25, ["car", "vehicle", "automobile"]⟩,
           ⟨"metals", 3, ["iron ore", "ore"]⟩,
           ⟨"steel", 13, ["steel", "coil"]⟩,
           ⟨"electronics", 13, ["electronic", "computer"]⟩,
           ⟨"textiles", 16, ["cotton", "textile", "fabric"]⟩ ] }),
    ("usa",
     { default_tax_rate := 0
       hs_code_rates :=
         [ ⟨"870321", 2.5, "Passenger Cars"⟩, ⟨"260111", 0, "Iron Ore Fines"⟩,
           ⟨"720851", 0, "Steel Coils"⟩, ⟨"300490", 0, "Medicines"⟩ ]
       category_rates :=
         [ ⟨"automotive", 2.5, ["car", "vehicle"]⟩,
           ⟨"metals", 0, ["iron", "steel", "metal"]⟩,
           ⟨"medicines", 0, ["medicine", "drug"]⟩ ] }),
    ("india",
     { default_tax_rate := 18
       hs_code_rates :=
         [ ⟨"870321", 28, "Passenger Cars"⟩, ⟨"260111", 5, "Iron Ore Fines"⟩,
           ⟨"720851", 18, "Steel Coils"⟩, ⟨"300490", 12, "Medicines"⟩,
           ⟨"710812", 3, "Gold"⟩ ]
       category_rates :=
         [ ⟨"automotive", 28, ["car", "vehicle", "automobile"]⟩,
           ⟨"metals", 5, ["iron ore", "ore"]⟩,
           ⟨"steel", 18, ["steel", "coil"]⟩,
           ⟨"medicines", 12, ["medicine", "drug", "pharmaceutical"]⟩,
           ⟨"gold", 3, ["gold", "silver", "precious"]⟩ ] }) ]

/-- `country_lower in COUNTRY_TAX_RATES` / `COUNTRY_TAX_RATES[country_lower]`. -/
def countryTaxLookup (c : String) : Option CountryTaxRates :=
  (COUNTRY_TAX_RATES.find? (fun p => p.1 == c)).map (fun p => p.2)

/-- Priority-1 lookup of `get_product_tax_rate`: exact match of the stripped
HS code against the country's `hs_code_rates` keys (guarded by the
truthiness of `hs_code`). -/
def hsRateLookup (tax_rules : CountryTaxRates) (hs_code : Option String) : Option HsRateEntry :=
  match hs_code with
  | none => none
  | some h => if h == "" then none else tax_rules.hs_code_rates.find? (fun e => e.code == pyStrip h)

/-- Priority-2 lookup of `get_product_tax_rate`: first category (in
declaration order) one of whose keywords occurs in the lower-cased
description. -/
def categoryRateLookup (tax_rules : CountryTaxRates) (description : Option String) :
    Option (CategoryEntry × String) :=
  match description with
  | none => none
  | some d =>
    if d == "" then none
    else tax_rules.category_rates.findSome? (fun c =>
      (c.keywords.find? (fun kw => strContains (pyLower d) kw)).map (fun kw => (c, kw)))

/-- Result dictionary of `get_product_tax_rate`: `found` carries the rate
and the human-readable source; the two `found = False` shapes are kept
apart. -/
inductive TaxRateResult where
  | noCountry (country : String)
  | found (rate : ℚ) (source : String)
  | notFound (description hs_code : Option String)
  deriving DecidableEq

/-- `get_product_tax_rate` (country_rules.py lines 110-159). -/
def get_product_tax_rate (country : String) (hs_code description : Option String) :
    TaxRateResult :=
  match countryTaxLookup (pyLower country) with
  | none => .noCountry country
  | some tax_rules =>
    match hsRateLookup tax_rules hs_code with
    | some e => .found e.rate ("HS Code " ++ pyStrip (hs_code.getD ""))
    | none =>
      match categoryRateLookup tax_rules description with
      | some (c, _) => .found c.rate ("Category: " ++ c.name)
      | none => .notFound description hs_code

/-- The rate of a resolver outcome, when one was found. -/
def TaxRateResult.rateOf : TaxRateResult → Option ℚ
  | .found r _ => some r
  | _ => none

structure CountryRule where
  banned_items : List String
  restricted_items : List String
  max_value_usd : ℚ
  required_certificates : List String
  deriving DecidableEq

/-- `COUNTRY_RULES` (country_rules.py lines 4-29). -/
def COUNTRY_RULES : List (String × CountryRule) :=
  [ ("russia", ⟨["polythene", "plastic", "synthetic polymer"], ["steel", "iron"], 2350000,
      ["phytosanitary", "quality_certificate"]⟩),
    ("china", ⟨["cotton", "textile"], ["electronics"], 100000, ["origin_certificate"]⟩),
    ("usa", ⟨["certain_chemicals"], ["food_products"], 200000, ["fda_approval"]⟩),
    ("india", ⟨["gold", "silver"], ["pharmaceuticals"], 75000, ["import_license"]⟩) ]

def countryRulesLookup (c : String) : Option CountryRule :=
  (COUNTRY_RULES.find? (fun p => p.1 == c)).map (fun p => p.2)

/-- Violations emitted by `validate_country_rules`; constructors carry the
data the source interpolates into its message strings. -/
inductive CountryError where
  | banned (item_description country : String)
  | valueLimit (total max_value : ℚ) (country : String)
  deriving DecidableEq

/-- `validate_country_rules` (country_rules.py lines 161-193): banned-item
substring checks and the value-ceiling check; unknown countries return the
empty list. -/
def validate_country_rules (invoice_data : InvoiceData) (country : String) :
    List CountryError :=
  match countryRulesLookup (pyLower country) with
  | none => []
  | some rules =>
    let bannedErrs :=
      (invoice_data.line_items.map (fun item =>
        (rules.banned_items.filter (fun b => strContains (pyLower item.description) b)).map
          (fun _ => CountryError.banned item.description country))).flatten
    let valueErrs :=
      if truthyQ invoice_data.total_amount ∧
          rules.max_value_usd < invoice_data.total_amount.getD 0 then
        [CountryError.valueLimit (invoice_data.total_amount.getD 0) rules.max_value_usd country]
      else []
    bannedErrs ++ valueErrs

end InvoiceAI

namespace InvoiceAI

/-! ## Tax validation (`app/validation/tax_rules.py`) -/

/-- Violations emitted by `validate_tax` / `validate_product_tax_rates`;
constructors carry the data the source interpolates into its messages. -/
inductive TaxError where
  | missingFields
  | taxMismatch (expected actual : ℚ)
  | unreasonableRate (pct : ℚ)
  | noCountryRules (country : String)
  | taxInfoMissing (description : String) (hs_code : Option String)
  | taxRateError (description : String) (correct_rate shown_rate : ℚ)
  | itemTotalError (description : String) (expected actual : ℚ)
  | grandTotalError (calculated declared : ℚ)
  deriving DecidableEq

/-- `validate_tax` (tax_rules.py lines 6-52): skipped entirely when any line
item carries its own tax percentage; otherwise the three top-level fields
must all be truthy (so a value of 0 counts as missing) before the
arithmetic and plausibility checks run. -/
def validate_tax (invoice : InvoiceData) : List TaxError :=
  let has_per_item_tax := invoice.line_items.any (fun item => item.tax_percentage.isSome)
  if has_per_item_tax then []
  else if ¬ (truthyQ invoice.subtotal ∧ truthyQ invoice.tax_percentage ∧
      truthyQ invoice.tax_amount) then
    -- the source re-tests `not has_per_item_tax` here; it is true on this path
    if ¬ has_per_item_tax then [.missingFields] else []
  else
    let expected_tax := pyRound2 (invoice.subtotal.getD 0 * invoice.tax_percentage.getD 0 / 100)
    let actual_tax := pyRound2 (invoice.tax_amount.getD 0)
    let e1 : List TaxError :=
      if 1/100 < |expected_tax - actual_tax| then [.taxMismatch expected_tax actual_tax] else []
    let e2 : List TaxError :=
      if invoice.tax_percentage.getD 0 < 0 ∨ 50 < invoice.tax_percentage.getD 0 then
        [.unreasonableRate (invoice.tax_percentage.getD 0)] else []
    e1 ++ e2

/-- The per-item body of `validate_product_tax_rates` (tax_rules.py lines
83-131): resolve the product's rate, compare the declared per-item tax
percentage, then check the item's own total arithmetic. -/
def itemTaxErrors (country : String) (item : LineItem) : List TaxError :=
  let tax_info := get_product_tax_rate country item.hs_code (some item.description)
  let e1 : List TaxError :=
    match tax_info with
    | .found correct_rate _ =>
      match item.tax_percentage with
      | some pct =>
        if 1/100 < |pct - correct_rate| then [.taxRateError item.description correct_rate pct]
        else []
      | none => []
    | _ => [.taxInfoMissing item.description item.hs_code]
  let e2 : List TaxError :=
    match item.subtotal, item.tax_percentage with
    | some st, some pct =>
      let expected_total := pyRound2 (st + st * pct / 100)
      let actual_total := pyRound2 item.total
      if 1/100 < |expected_total - actual_total| then
        [.itemTotalError item.description expected_total actual_total]
      else []
    | _, _ => []
  e1 ++ e2

/-- `validate_product_tax_rates` (tax_rules.py lines 55-153). -/
def validate_product_tax_rates (invoice : InvoiceData) (country : String) : List TaxError :=
  if (countryTaxLookup (pyLower country)).isNone then [.noCountryRules country]
  else
    let itemErrs := (invoice.line_items.map (itemTaxErrors country)).flatten
    let calculated_grand_total :=
      invoice.line_items.foldl (fun acc item => if item.total != 0 then acc + item.total else acc) 0
    let grandErrs : List TaxError :=
      if truthyQ invoice.total_amount ∧ 0 < calculated_grand_total then
        let c := pyRound2 calculated_grand_total
        let g := pyRound2 (invoice.total_amount.getD 0)
        if 1/100 < |c - g| then [.grandTotalError c g] else []
      else []
    itemErrs ++ grandErrs

end InvoiceAI

namespace InvoiceAI

/-- The line item of the spec's Scenarios A/B: description "Steel Coils",
HS code "720851", a declared per-item tax percentage. -/
def steelCoilsItem (pct : ℚ) : LineItem :=
  { description := "Steel Coils", quantity := 10, unit_price := 500, total := 0,
    hs_code := some "720851", tax_percentage := some pct }

/-- The Scenario A/B invoice: a single "Steel Coils" line item. -/
def scenarioABInvoice (pct : ℚ) : InvoiceData := { line_items := [steelCoilsItem pct] }

/-- C4 (counterexample): for Russia, the "Steel Coils" item with HS code
"720851" and declared tax 15.0 yields exactly one TAX RATE ERROR — citing
8.0 expected versus 15.0 found — because the Russia table maps "720851" to
rate 8.0 ("Steel Coils"), not 15.0; the claim predicted zero violations for
15.0. -/
theorem scenarioA_declared_15_gives_one_tax_rate_error :
    validate_product_tax_rates (scenarioABInvoice 15) "russia" =
      [TaxError.taxRateError "Steel Coils" 8 15] := by
  with_unfolding_all decide

/-- C4 (amended): for the Russia tax table, a line item with description
"Steel Coils" and HS code "720851" resolves to rate 8.0 (the table's entry
for that HS code), so declaring tax_pct=8.0 yields zero violations, while
declaring tax_pct=15.0 yields exactly one TAX RATE ERROR citing 8.0
expected versus 15.0 found. -/
theorem steel_coils_720851_russia_rate_8 :
    get_product_tax_rate "russia" (some "720851") (some "Steel Coils") =
      TaxRateResult.found 8 "HS Code 720851" ∧
    validate_product_tax_rates (scenarioABInvoice 8) "russia" = [] ∧
    validate_product_tax_rates (scenarioABInvoice 15) "russia" =
      [TaxError.taxRateError "Steel Coils" 8 15] := by
  refine ⟨by with_unfolding_all decide, by with_unfolding_all decide, ?_⟩
  with_unfolding_all decide

/-- C6 (counterexample): HS code "72085110" has the 6-digit prefix "720851"
in the Russia table (rate 8.0), yet the resolver returns no rate for it:
there is no hierarchical prefix matching. -/
theorem hs_72085110_prefix_720851_not_matched :
    ("720851".toList <+: "72085110".toList) ∧
    get_product_tax_rate "russia" (some "720851") none =
      TaxRateResult.found 8 "HS Code 720851" ∧
    (get_product_tax_rate "russia" (some "72085110") none).rateOf = none := by
  refine ⟨by decide, by with_unfolding_all decide, by with_unfolding_all decide⟩

/-- C6 (amended): the resolver matches the HS code only against exact
(stripped) table keys; when the exact code is absent from the country's
table the outcome is the same as if no HS code had been supplied at all
(description keyword fallback or not-found) — no shorter prefix is ever
consulted. -/
theorem hs_exact_miss_ignores_hs_code (country hs : String) (desc : Option String)
    (h : (countryTaxLookup (pyLower country)).all
        (fun tax_rules => (hsRateLookup tax_rules (some hs)).isNone) = true) :
    (get_product_tax_rate country (some hs) desc).rateOf =
      (get_product_tax_rate country none desc).rateOf := by
  cases hc : countryTaxLookup (pyLower country) with
  | none => simp only [get_product_tax_rate, hc]
  | some tax_rules =>
    rw [hc] at h
    have hnone : hsRateLookup tax_rules (some hs) = none := by
      simpa [Option.all, Option.isNone_iff_eq_none] using h
    have h2 : hsRateLookup tax_rules none = none := rfl
    simp only [get_product_tax_rate, hc, hnone, h2]
    rcases hcat : categoryRateLookup tax_rules desc with _ | ⟨c, kw⟩ <;> rfl

/-- Witness for C6: for the Russia table and HS code "72085110" (an exact
miss), resolving with the HS code gives the same rate outcome as resolving
without it. -/
theorem hs_exact_miss_ignores_hs_code_witness :
    (countryTaxLookup (pyLower "russia")).all
        (fun tax_rules => (hsRateLookup tax_rules (some "72085110")).isNone) = true ∧
    (get_product_tax_rate "russia" (some "72085110") none).rateOf =
      (get_product_tax_rate "russia" none none).rateOf :=
  ⟨by with_unfolding_all decide,
   hs_exact_miss_ignores_hs_code "russia" "72085110" none (by with_unfolding_all decide)⟩

end InvoiceAI

namespace InvoiceAI

/-- C8: for every line item whose HS code matches no entry in the country's
code table and whose description matches no category keyword, the resolver
returns the not-found outcome (no rate at all — in particular no default or
zero rate), and per-item validation emits a TAX INFO MISSING violation for
that item. -/
theorem unknown_product_fails_closed (invoice : InvoiceData) (country : String)
    (item : LineItem) (tax_rules : CountryTaxRates)
    (hmem : item ∈ invoice.line_items)
    (hc : countryTaxLookup (pyLower country) = some tax_rules)
    (hhs : hsRateLookup tax_rules item.hs_code = none)
    (hkw : categoryRateLookup tax_rules (some item.description) = none) :
    get_product_tax_rate country item.hs_code (some item.description) =
      TaxRateResult.notFound (some item.description) item.hs_code ∧
    (get_product_tax_rate country item.hs_code (some item.description)).rateOf = none ∧
    TaxError.taxInfoMissing item.description item.hs_code ∈
      validate_product_tax_rates invoice country := by
  have hres : get_product_tax_rate country item.hs_code (some item.description) =
      TaxRateResult.notFound (some item.description) item.hs_code := by
    simp only [get_product_tax_rate, hc, hhs, hkw]
  refine ⟨hres, by rw [hres]; rfl, ?_⟩
  have hitem : TaxError.taxInfoMissing item.description item.hs_code ∈
      itemTaxErrors country item := by
    unfold itemTaxErrors
    rw [hres]
    exact List.mem_append_left _ (List.mem_singleton.mpr rfl)
  have hisnone : (countryTaxLookup (pyLower country)).isNone = false := by
    rw [hc]; rfl
  simp only [validate_product_tax_rates, hisnone, Bool.false_eq_true, if_false]
  refine List.mem_append_left _ ?_
  exact List.mem_flatten.mpr ⟨itemTaxErrors country item, List.mem_map_of_mem _ hmem, hitem⟩

/-- A line item whose HS code and description match nothing in any table. -/
def mysteryItem : LineItem :=
  { description := "Mystery Widget", quantity := 1, unit_price := 10, total := 0,
    hs_code := some "999999" }

/-- An invoice holding only the unmatched item. -/
def mysteryInvoice : InvoiceData := { line_items := [mysteryItem] }

/-- The Russia entry of the tax-rate table, as a concrete record. -/
def russiaTaxRules : CountryTaxRates :=
  (countryTaxLookup "russia").getD ⟨0, [], []⟩

/-- Witness for C8: the "Mystery Widget" item (HS "999999") in Russia — no
HS entry, no keyword match — surfaces as not-found plus a TAX INFO MISSING
violation. -/
theorem unknown_product_fails_closed_witness :
    mysteryItem ∈ mysteryInvoice.line_items ∧
    countryTaxLookup (pyLower "russia") = some russiaTaxRules ∧
    hsRateLookup russiaTaxRules mysteryItem.hs_code = none ∧
    categoryRateLookup russiaTaxRules (some mysteryItem.description) = none ∧
    (get_product_tax_rate "russia" mysteryItem.hs_code (some mysteryItem.description) =
      TaxRateResult.notFound (some mysteryItem.description) mysteryItem.hs_code ∧
    (get_product_tax_rate "russia" mysteryItem.hs_code (some mysteryItem.description)).rateOf
      = none ∧
    TaxError.taxInfoMissing mysteryItem.description mysteryItem.hs_code ∈
      validate_product_tax_rates mysteryInvoice "russia") :=
  ⟨by decide, by with_unfolding_all decide, by with_unfolding_all decide,
   by with_unfolding_all decide,
   unknown_product_fails_closed mysteryInvoice "russia" mysteryItem russiaTaxRules
     (by decide) (by with_unfolding_all decide) (by with_unfolding_all decide)
     (by with_unfolding_all decide)⟩

/-- C9: for every invoice and destination country with no entry in
`COUNTRY_RULES`, `validate_country_rules` returns the empty list — no
banned-item or value-ceiling violation is ever emitted for an unknown
country (these checks fail open). -/
theorem unknown_country_rules_fail_open (invoice : InvoiceData) (country : String)
    (h : countryRulesLookup (pyLower country) = none) :
    validate_country_rules invoice country = [] := by
  simp only [validate_country_rules, h]

/-- An invoice that would trip both checks for a known country: a banned
polythene item and an amount above every ceiling in the table. -/
def polytheneInvoice : InvoiceData :=
  { total_amount := some 99999999,
    line_items := [{ description := "Polythene Sheets", quantity := 1, unit_price := 1,
                     total := 99999999 }] }

/-- Witness for C9: "germany" is not in the rules table, so even the
polythene invoice with a huge total passes with no violations. -/
theorem unknown_country_rules_fail_open_witness :
    countryRulesLookup (pyLower "germany") = none ∧
    validate_country_rules polytheneInvoice "germany" = [] :=
  ⟨by with_unfolding_all decide,
   unknown_country_rules_fail_open polytheneInvoice "germany" (by with_unfolding_all decide)⟩

/-- C10: when no line item carries its own tax percentage, a top-level
subtotal, tax percentage, or tax amount equal to 0 is treated exactly like
an absent one: `validate_tax` emits only the "Missing required fields"
violation and performs no arithmetic or plausibility check. -/
theorem zero_tax_fields_treated_as_missing (invoice : InvoiceData)
    (hper : invoice.line_items.any (fun item => item.tax_percentage.isSome) = false)
    (h0 : invoice.subtotal = some 0 ∨ invoice.tax_percentage = some 0 ∨
      invoice.tax_amount = some 0) :
    validate_tax invoice = [TaxError.missingFields] := by
  rcases h0 with h | h | h <;>
    simp [validate_tax, hper, h, truthyQ]

/-- Witness for C10: subtotal 0 with nonzero tax percentage and amount, no
per-item tax — only the missing-fields violation is reported. -/
theorem zero_tax_fields_treated_as_missing_witness :
    (({ subtotal := some 0, tax_percentage := some 10, tax_amount := some 5 }
        : InvoiceData).line_items.any (fun item => item.tax_percentage.isSome) = false) ∧
    validate_tax { subtotal := some 0, tax_percentage := some 10, tax_amount := some 5 } =
      [TaxError.missingFields] :=
  ⟨by decide,
   zero_tax_fields_treated_as_missing _ (by decide) (Or.inl rfl)⟩

end InvoiceAI

namespace InvoiceAI

/-! ## Fraud detection (`app/validation/fraud_detection.py`).  The database
tables read by the detector are passed explicitly: stored invoices, vendor
ledger rows and price-history rows; `now` is the current day as an integer
(only day-granularity differences are compared in the source). -/

/-- A stored `models.Invoice` row (the columns the detector queries). -/
structure StoredInvoice where
  invoice_id : Option String := none
  vendor_name : Option String := none
  total_amount : Option ℚ := none
  invoice_date : Option String := none
  created_at : ℤ := 0
  deriving DecidableEq

/-- A stored `models.PriceHistory` row. -/
structure PriceRecord where
  hs_code : Option String := none
  product_description : String
  unit_price : ℚ
  deriving DecidableEq

/-- A stored `models.VendorScore` row. -/
structure VendorScore where
  vendor_name : String
  total_invoices : ℕ := 0
  successful_invoices : ℕ := 0
  failed_invoices : ℕ := 0
  total_amount_processed : ℚ := 0
  last_invoice_date : Option ℤ := none
  deriving DecidableEq

/-- `FraudDetectionResult` (fraud_detection.py lines 20-49); the
diagnostic `details` map is omitted (nothing reads it back). -/
structure FraudDetectionResult where
  fraud_score : ℚ := 0
  flags : List String := []
  warnings : List String := []
  deriving DecidableEq

/-- `add_flag`: record the flag and raise the score, capping at 100. -/
def FraudDetectionResult.add_flag (r : FraudDetectionResult) (flag : String)
    (score_impact : ℚ) : FraudDetectionResult :=
  { r with flags := r.flags ++ [flag], fraud_score := min 100 (r.fraud_score + score_impact) }

/-- `add_warning`: informational, does not affect the score. -/
def FraudDetectionResult.add_warning (r : FraudDetectionResult) (warning : String) :
    FraudDetectionResult :=
  { r with warnings := r.warnings ++ [warning] }

/-- Python `s[:20]`. -/
def strTake (n : ℕ) (s : String) : String := String.mk (s.data.take n)

/-- Check 1 of `detect_duplicate_invoice`: exact invoice-id match. -/
def dupCheck1 (db : List StoredInvoice) (invoice : InvoiceData) : List String :=
  if truthyS invoice.invoice_id ∧
      (db.find? (fun s => s.invoice_id == invoice.invoice_id)).isSome then
    ["DUPLICATE: Invoice ID '" ++ invoice.invoice_id.getD "" ++ "' already exists in database"]
  else []

/-- Check 2 of `detect_duplicate_invoice`: same amount + same date
(+ same vendor when the vendor name is truthy). -/
def dupCheck2 (db : List StoredInvoice) (invoice : InvoiceData)
    (vendor_name : Option String) : List String :=
  if truthyQ invoice.total_amount ∧ invoice.invoice_date.isSome then
    let matchRows := db.filter (fun s =>
      s.total_amount == invoice.total_amount && s.invoice_date == invoice.invoice_date &&
      (!truthyS vendor_name || s.vendor_name == vendor_name))
    if 0 < matchRows.length then
      ["POTENTIAL DUPLICATE: Found invoice(s) with same amount and date"]
    else []
  else []

/-- Check 3 of `detect_duplicate_invoice`: more than 2 invoices from the
same vendor within 1% of the amount in the trailing 7 days. -/
def dupCheck3 (db : List StoredInvoice) (now : ℤ) (invoice : InvoiceData)
    (vendor_name : Option String) : List String :=
  if truthyQ invoice.total_amount ∧ truthyS vendor_name then
    let tolerance := invoice.total_amount.getD 0 * (1/100)
    let similar := (db.filter (fun s =>
      s.vendor_name == vendor_name &&
      (match s.total_amount with
       | some t => decide (invoice.total_amount.getD 0 - tolerance ≤ t) &&
           decide (t ≤ invoice.total_amount.getD 0 + tolerance)
       | none => false) &&
      decide (now - 7 ≤ s.created_at))).length
    if 2 < similar then
      ["SUSPICIOUS: similar invoices from vendor in last 7 days"]
    else []
  else []

/-- `detect_duplicate_invoice` (fraud_detection.py lines 52-106): the three
checks above, in order.  The interpolated numbers inside the messages are
abbreviated; the leading markers ("DUPLICATE:", "POTENTIAL DUPLICATE:",
"SUSPICIOUS:") are verbatim since `run_fraud_detection` dispatches on
them. -/
def detect_duplicate_invoice (db : List StoredInvoice) (now : ℤ) (invoice : InvoiceData)
    (vendor_name : Option String) : Bool × List String :=
  let duplicates := dupCheck1 db invoice ++ dupCheck2 db invoice vendor_name ++
    dupCheck3 db now invoice vendor_name
  (0 < duplicates.length, duplicates)

/-- `detect_price_anomaly` (fraud_detection.py lines 109-168), anomaly
messages only (the details dict is diagnostic).  The `vendor_name`
parameter is accepted and unused, as in the source.  SQL AVG over the
filtered sample is the sum divided by the row count. -/
def detect_price_anomaly (db : List PriceRecord) (line_items : List LineItem)
    (_vendor_name : Option String := none) : List String :=
  (line_items.map (fun item =>
    if item.unit_price = 0 ∨ item.unit_price ≤ 0 then []
    else
      let filtered :=
        if truthyS item.hs_code then db.filter (fun p => p.hs_code == item.hs_code)
        else db.filter (fun p =>
          strContains (pyLower p.product_description) (pyLower (strTake 20 item.description)))
      if 3 ≤ filtered.length then
        let avg : ℚ := ((filtered.map (fun p => p.unit_price)).sum) / (filtered.length : ℚ)
        let deviation := |item.unit_price - avg| / avg * 100
        if 50 < deviation then ["HIGH PRICE ANOMALY: '" ++ item.description ++ "'"]
        else if 30 < deviation then ["PRICE WARNING: '" ++ item.description ++ "'"]
        else []
      else [])).flatten

/-- `get_vendor_risk_score` (fraud_detection.py lines 171-232), score only
(the details dict is diagnostic). -/
def get_vendor_risk_score (db : List VendorScore) (now : ℤ) (vendor_name : Option String) : ℚ :=
  if ¬ truthyS vendor_name then 50
  else
    match db.find? (fun v => some v.vendor_name == vendor_name) with
    | none => 50
    | some vendor =>
      let success_rate : ℚ :=
        if 0 < vendor.total_invoices then
          (vendor.successful_invoices : ℚ) / (vendor.total_invoices : ℚ)
        else 1/2
      let risk := (1 - success_rate) * 60
      let risk :=
        if vendor.total_invoices < 5 then risk + 15
        else if 20 < vendor.total_invoices then risk - 5
        else risk
      let risk :=
        match vendor.last_invoice_date with
        | some d => if 180 < now - d then risk + 10 else risk
        | none => risk
      max 0 (min 100 risk)

/-- `run_fraud_detection` (fraud_detection.py lines 294-355). -/
def run_fraud_detection (dbInv : List StoredInvoice) (dbVend : List VendorScore)
    (dbPrice : List PriceRecord) (now : ℤ) (invoice : InvoiceData)
    (vendor_name : Option String) : FraudDetectionResult :=
  let result : FraudDetectionResult := {}
  let dup := detect_duplicate_invoice dbInv now invoice vendor_name
  let result :=
    if dup.1 then
      dup.2.foldl (fun r reason =>
        if strContains reason "DUPLICATE:" then r.add_flag reason 40
        else if strContains reason "POTENTIAL DUPLICATE:" then r.add_flag reason 25
        else r.add_flag reason 15) result
    else result
  let result :=
    if invoice.line_items ≠ [] then
      (detect_price_anomaly dbPrice invoice.line_items vendor_name).foldl
        (fun r anomaly =>
          if strContains anomaly "HIGH PRICE ANOMALY" then r.add_flag anomaly 20
          else r.add_warning anomaly) result
    else result
  let vendor_risk := get_vendor_risk_score dbVend now vendor_name
  let result :=
    if 70 ≤ vendor_risk then
      result.add_flag ("HIGH RISK VENDOR: '" ++ vendor_name.getD "" ++ "'") 25
    else if 50 ≤ vendor_risk then
      result.add_warning ("Vendor '" ++ vendor_name.getD "" ++ "' has moderate risk score")
    else result
  let result :=
    if truthyQ invoice.total_amount ∧ (invoice.total_amount.getD 0).den = 1 then
      if 10000 ≤ invoice.total_amount.getD 0 then
        result.add_warning "Round number amount - verify authenticity"
      else result
    else result
  let missing_fields :=
    (if ¬ truthyS invoice.invoice_id then ["invoice_id"] else []) ++
    (if invoice.invoice_date.isNone then ["invoice_date"] else []) ++
    (if ¬ truthyS vendor_name then ["vendor/exporter"] else [])
  if missing_fields ≠ [] then
    result.add_flag ("MISSING FIELDS: " ++ String.intercalate ", " missing_fields)
      (10 * (missing_fields.length : ℚ))
  else result

end InvoiceAI

namespace InvoiceAI

/-- One stored invoice: amount 5123 on 2024-01-01 from VendorX. -/
def c2Db : List StoredInvoice :=
  [{ invoice_id := some "INV-OLD", vendor_name := some "VendorX",
     total_amount := some 5123, invoice_date := some "2024-01-01", created_at := 0 }]

/-- A new submission with a fresh invoice id but the same amount, date and
vendor as the stored one. -/
def c2Invoice : InvoiceData :=
  { invoice_id := some "INV-NEW", invoice_date := some "2024-01-01",
    total_amount := some 5123, line_items := [] }

set_option maxRecDepth 4000 in
/-- C2: on an invoice matching a stored one by amount, date and vendor but
with a fresh invoice id, `run_fraud_detection` raises exactly the
same-amount-same-date duplicate flag, but its score contribution is 40, not
the intended 25: the `"DUPLICATE:"` substring test matches the
"POTENTIAL DUPLICATE:" message first, so the dedicated 25-point branch is
unreachable. -/
theorem same_amount_date_flag_scores_40 :
    strContains "POTENTIAL DUPLICATE: Found invoice(s) with same amount and date"
      "DUPLICATE:" = true ∧
    (run_fraud_detection c2Db [] [] 100 c2Invoice (some "VendorX")).flags =
      ["POTENTIAL DUPLICATE: Found invoice(s) with same amount and date"] ∧
    (run_fraud_detection c2Db [] [] 100 c2Invoice (some "VendorX")).fraud_score = 40 := by
  have hc1 : dupCheck1 c2Db c2Invoice = [] := by
    simp [dupCheck1, c2Invoice, c2Db, truthyS]
  have hc2 : dupCheck2 c2Db c2Invoice (some "VendorX") =
      ["POTENTIAL DUPLICATE: Found invoice(s) with same amount and date"] := by
    simp [dupCheck2, c2Invoice, c2Db, truthyQ]
  have hc3 : dupCheck3 c2Db 100 c2Invoice (some "VendorX") = [] := by
    simp [dupCheck3, c2Invoice, c2Db, truthyS, truthyQ]
  have hdup : detect_duplicate_invoice c2Db 100 c2Invoice (some "VendorX") =
      (true, ["POTENTIAL DUPLICATE: Found invoice(s) with same amount and date"]) := by
    simp [detect_duplicate_invoice, hc1, hc2, hc3]
  have hrisk : get_vendor_risk_score [] 100 (some "VendorX") = 50 := by decide
  have hsc1 : strContains "POTENTIAL DUPLICATE: Found invoice(s) with same amount and date"
      "DUPLICATE:" = true := by decide
  have ht1 : truthyS (some "INV-NEW") = true := by decide
  have ht2 : truthyS (some "VendorX") = true := by decide
  have hf1 : c2Invoice.line_items = [] := rfl
  have hf2 : c2Invoice.total_amount = some 5123 := rfl
  have hf3 : c2Invoice.invoice_id = some "INV-NEW" := rfl
  have hf4 : c2Invoice.invoice_date = some "2024-01-01" := rfl
  refine ⟨hsc1, ?_, ?_⟩ <;>
  · simp only [run_fraud_detection, hdup, hc1, hc2, hc3, hrisk, hf1, hf2, hf3, hf4,
      List.foldl, hsc1, ht1, ht2]
    norm_num [FraudDetectionResult.add_flag, FraudDetectionResult.add_warning, truthyQ,
      min_def]

/-- Folding `add_flag` over a list of (flag, score impact) pairs, starting
from a given result — the shape of every flag sequence
`run_fraud_detection` can produce. -/
def apply_flags (r : FraudDetectionResult) (l : List (String × ℚ)) : FraudDetectionResult :=
  l.foldl (fun acc p => acc.add_flag p.1 p.2) r

lemma apply_flags_score_le_100 (l : List (String × ℚ)) (r : FraudDetectionResult)
    (hr : r.fraud_score ≤ 100) : (apply_flags r l).fraud_score ≤ 100 := by
  induction l generalizing r with
  | nil => exact hr
  | cons p t ih =>
    exact ih _ (min_le_left _ _)

lemma apply_flags_score_nonneg (l : List (String × ℚ)) (r : FraudDetectionResult)
    (hr : 0 ≤ r.fraud_score) (hl : ∀ p ∈ l, 0 ≤ p.2) :
    0 ≤ (apply_flags r l).fraud_score := by
  induction l generalizing r with
  | nil => exact hr
  | cons p t ih =>
    refine ih _ (le_min (by norm_num) ?_) (fun q hq => hl q (List.mem_cons_of_mem _ hq))
    exact add_nonneg hr (hl p (List.mem_cons_self _ _))

lemma apply_flags_score_mono (l : List (String × ℚ)) (r : FraudDetectionResult)
    (hr : r.fraud_score ≤ 100) (hl : ∀ p ∈ l, 0 ≤ p.2) :
    r.fraud_score ≤ (apply_flags r l).fraud_score := by
  induction l generalizing r with
  | nil => exact le_refl _
  | cons p t ih =>
    refine le_trans (le_min hr ?_) (ih _ (min_le_left _ _)
      (fun q hq => hl q (List.mem_cons_of_mem _ hq)))
    exact le_add_of_nonneg_right (hl p (List.mem_cons_self _ _))

/-- C7: starting from a fresh result (score 0), any sequence of `add_flag`
calls with the nonnegative weights the detector uses keeps the fraud score
inside [0, 100], and appending further flag-triggering conditions never
lowers the score. -/
theorem fraud_score_in_range_and_monotone (l extra : List (String × ℚ))
    (hl : ∀ p ∈ l, 0 ≤ p.2) (hextra : ∀ p ∈ extra, 0 ≤ p.2) :
    0 ≤ (apply_flags {} l).fraud_score ∧
    (apply_flags {} l).fraud_score ≤ 100 ∧
    (apply_flags {} l).fraud_score ≤ (apply_flags {} (l ++ extra)).fraud_score := by
  have h0 : ((({} : FraudDetectionResult)).fraud_score : ℚ) = 0 := rfl
  have hle : (apply_flags {} l).fraud_score ≤ 100 :=
    apply_flags_score_le_100 l _ (by rw [h0]; norm_num)
  refine ⟨apply_flags_score_nonneg l _ (by rw [h0]) hl, hle, ?_⟩
  have happ : apply_flags {} (l ++ extra) = apply_flags (apply_flags {} l) extra := by
    simp [apply_flags, List.foldl_append]
  rw [happ]
  exact apply_flags_score_mono extra _ hle hextra

/-- Witness for C7: the concrete flag sequence [("A", 40)] extended by
[("B", 25)] — score 40 stays within bounds and only grows. -/
theorem fraud_score_in_range_and_monotone_witness :
    (∀ p ∈ [("A", (40:ℚ))], 0 ≤ p.2) ∧ (∀ p ∈ [("B", (25:ℚ))], 0 ≤ p.2) ∧
    (0 ≤ (apply_flags {} [("A", (40:ℚ))]).fraud_score ∧
     (apply_flags {} [("A", (40:ℚ))]).fraud_score ≤ 100 ∧
     (apply_flags {} [("A", (40:ℚ))]).fraud_score ≤
       (apply_flags {} ([("A", (40:ℚ))] ++ [("B", (25:ℚ))])).fraud_score) :=
  ⟨by decide, by decide,
   fraud_score_in_range_and_monotone [("A", 40)] [("B", 25)] (by decide) (by decide)⟩

end InvoiceAI
